import Mathlib

/-!
Verification development for the taskflow tutorial repository.

The REST service in `taskflow-api/src/main.py` is embedded shallowly:
Python dictionaries become association lists over `String` keys (Python
dict semantics: unique keys, assignment overwrites in place, new keys are
appended, deletion removes the key), each FastAPI handler becomes a pure
function from the current clock string and store to a typed result plus
the successor store, and `raise HTTPException(status_code, detail)` becomes
the `httpError` constructor carrying the status code and the detail record
built at the raise site.  The gRPC demo server's client-streaming
`BatchUpdateTasks` from `Day-1/demos/grpc-demo/server.py` is embedded with
the random failure draw (`random.random() < 0.2`) abstracted into a
boolean oracle indexed by the position of the request in the stream.
-/

namespace TaskFlow

/-- A JSON-like value stored in a task record field or supplied in a
`PUT /tasks/{id}` payload.  Python stores arbitrary values in the record
dict; strings, `None`, numbers, booleans and lists of strings cover every
value occurring in the repository. -/
inductive Value where
  | vStr (s : String)
  | vNone
  | vInt (n : Int)
  | vBool (b : Bool)
  | vListStr (xs : List String)
deriving DecidableEq, Repr

/-- Embedding of an optional string the way the handlers store it
(`None` becomes JSON null, a string stays a string). -/
def optValue : Option String → Value
  | some s => Value.vStr s
  | none => Value.vNone

/-- A task record.  `main.py` keeps each task as a dict with exactly the
six keys `id, title, description, status, created_at, user_story`; the
seeded records, `Task(...).dict()` on creation, and the key-preserving
update loop never add or remove a key, so a six-field structure over
`Value` is the faithful shape. -/
structure Task where
  id : Value
  title : Value
  description : Value
  status : Value
  created_at : Value
  user_story : Value
deriving DecidableEq, Repr

/-- The six field names of a task record, as an enumeration. -/
inductive TaskField where
  | id
  | title
  | description
  | status
  | created_at
  | user_story
deriving DecidableEq, Repr

/-- Read one field of a task record. -/
def Task.get (t : Task) : TaskField → Value
  | TaskField.id => t.id
  | TaskField.title => t.title
  | TaskField.description => t.description
  | TaskField.status => t.status
  | TaskField.created_at => t.created_at
  | TaskField.user_story => t.user_story

/-- Write one field of a task record. -/
def Task.set (t : Task) (f : TaskField) (v : Value) : Task :=
  match f with
  | TaskField.id => { t with id := v }
  | TaskField.title => { t with title := v }
  | TaskField.description => { t with description := v }
  | TaskField.status => { t with status := v }
  | TaskField.created_at => { t with created_at := v }
  | TaskField.user_story => { t with user_story := v }

/-- Which record field, if any, a payload key addresses: the embedding of
Python's `key in tasks_db[task_id]` test, since the record keys are
always exactly the six. -/
def parseField (k : String) : Option TaskField :=
  if k = "id" then some TaskField.id
  else if k = "title" then some TaskField.title
  else if k = "description" then some TaskField.description
  else if k = "status" then some TaskField.status
  else if k = "created_at" then some TaskField.created_at
  else if k = "user_story" then some TaskField.user_story
  else none

/-- Read a record field by its string key (`none` when the key is not a
field of the record). -/
def getFieldStr (t : Task) (k : String) : Option Value :=
  (parseField k).map (fun f => t.get f)

/-- One iteration of the update loop of `update_task`:
`if key in tasks_db[task_id]: tasks_db[task_id][key] = value`. -/
def setField (t : Task) (k : String) (v : Value) : Task :=
  match parseField k with
  | some f => t.set f v
  | none => t

/-- The whole update loop `for key, value in task_update.items(): ...`
over the items of the payload, in order. -/
def applyUpdate (t : Task) (upd : List (String × Value)) : Task :=
  upd.foldl (fun acc kv => setField acc kv.1 kv.2) t

/-- Lookup in a Python dict embedded as an association list. -/
def dictGet {α : Type} : List (String × α) → String → Option α
  | [], _ => none
  | (k1, v) :: rest, k => if k1 = k then some v else dictGet rest k

/-- Assignment `d[k] = v` in a Python dict: overwrite in place when the
key is present, append when it is new. -/
def dictSet {α : Type} : List (String × α) → String → α → List (String × α)
  | [], k, v => [(k, v)]
  | (k1, v1) :: rest, k, v =>
    if k1 = k then (k, v) :: rest else (k1, v1) :: dictSet rest k v

/-- Deletion `del d[k]` in a Python dict (keys are unique, so removing
every pair with the key equals removing the single one). -/
def dictDel {α : Type} : List (String × α) → String → List (String × α)
  | [], _ => []
  | (k1, v) :: rest, k =>
    if k1 = k then dictDel rest k else (k1, v) :: dictDel rest k

/-- The task store `tasks_db`: a dict from task ID to task record. -/
def Store : Type := List (String × Task)

/-- Python's `f"{n:03d}"`: decimal with zero padding to width three. -/
def pad3 (n : Nat) : String :=
  if n < 10 then "00" ++ toString n
  else if n < 100 then "0" ++ toString n
  else toString n

/-- The success envelope `ApiResponse` of `main.py`. -/
structure ApiResponse (T : Type) where
  success : Bool
  data : Option T
  message : Option String
  timestamp : String
  version : String
deriving DecidableEq, Repr

/-- The detail dict handed to `HTTPException` at every raise site. -/
structure ErrorDetail where
  success : Bool
  error : String
  message : String
  timestamp : String
  version : String
deriving DecidableEq, Repr

/-- Outcome of one handler call: a normal return with its HTTP status and
envelope, or a raised `HTTPException` with status and detail. -/
inductive HResult (T : Type) where
  | ok (status : Nat) (resp : ApiResponse T)
  | httpError (status : Nat) (detail : ErrorDetail)
deriving DecidableEq, Repr

/-- The `TASK_NOT_FOUND` detail built identically at the raise sites of
`get_task`, `update_task` and `delete_task`. -/
def taskNotFoundDetail (now tid : String) : ErrorDetail :=
  { success := false
    error := "TASK_NOT_FOUND"
    message := "Task with ID " ++ tid ++ " not found"
    timestamp := now
    version := "1.0.0" }

/-- The body of `POST /tasks`. -/
structure CreateTaskRequest where
  title : String
  description : String
  user_story : Option String
deriving DecidableEq, Repr

/-- Handler of `GET /tasks/{task_id}` (`get_task` in `main.py`): 404 with
`TASK_NOT_FOUND` when the ID is absent, else the stored record.  The
second component is the store after the call. -/
def get_task (now : String) (db : Store) (task_id : String) :
    HResult Task × Store :=
  match dictGet db task_id with
  | none => (HResult.httpError 404 (taskNotFoundDetail now task_id), db)
  | some t =>
    (HResult.ok 200
      { success := true
        data := some t
        message := some "Task retrieved successfully"
        timestamp := now
        version := "1.0.0" }, db)

/-- Handler of `POST /tasks` (`create_task`): generate
`task_{len(tasks_db)+1:03d}`, build the record with status `pending` and
the submitted fields, store it, answer 201. -/
def create_task (now : String) (db : Store) (req : CreateTaskRequest) :
    HResult Task × Store :=
  let task_id := "task_" ++ pad3 (db.length + 1)
  let new_task : Task :=
    { id := Value.vStr task_id
      title := Value.vStr req.title
      description := Value.vStr req.description
      status := Value.vStr "pending"
      created_at := Value.vStr now
      user_story := optValue req.user_story }
  (HResult.ok 201
    { success := true
      data := some new_task
      message := some "Task created successfully"
      timestamp := now
      version := "1.0.0" }, dictSet db task_id new_task)

/-- Handler of `PUT /tasks/{task_id}` (`update_task`): 404 when absent,
else overwrite each payload key that is a key of the record, in payload
order, and answer with the updated record. -/
def update_task (now : String) (db : Store) (task_id : String)
    (task_update : List (String × Value)) : HResult Task × Store :=
  match dictGet db task_id with
  | none => (HResult.httpError 404 (taskNotFoundDetail now task_id), db)
  | some t =>
    let t1 := applyUpdate t task_update
    (HResult.ok 200
      { success := true
        data := some t1
        message := some "Task updated successfully"
        timestamp := now
        version := "1.0.0" }, dictSet db task_id t1)

/-- Handler of `DELETE /tasks/{task_id}` (`delete_task`): 404 when
absent, else remove the record and answer a message dict. -/
def delete_task (now : String) (db : Store) (task_id : String) :
    HResult (List (String × String)) × Store :=
  match dictGet db task_id with
  | none => (HResult.httpError 404 (taskNotFoundDetail now task_id), db)
  | some _ =>
    (HResult.ok 200
      { success := true
        data := some [("message", "Task deleted successfully")]
        message := some "Task deleted successfully"
        timestamp := now
        version := "1.0.0" }, dictDel db task_id)

/-- The seeded record `task_001` of `tasks_db` in `main.py`. -/
def seededTask1 : Task :=
  { id := Value.vStr "task_001"
    title := Value.vStr "Learn FastAPI"
    description := Value.vStr "Build your first API with FastAPI"
    status := Value.vStr "in_progress"
    created_at := Value.vStr "2024-01-15T10:00:00Z"
    user_story := Value.vStr
      "As a developer, I want to learn FastAPI so that I can build modern APIs quickly" }

/-- The seeded record `task_002` of `tasks_db` in `main.py`. -/
def seededTask2 : Task :=
  { id := Value.vStr "task_002"
    title := Value.vStr "Understand REST"
    description := Value.vStr "Learn REST principles and HTTP methods"
    status := Value.vStr "completed"
    created_at := Value.vStr "2024-01-14T09:00:00Z"
    user_story := Value.vStr
      "As a developer, I want to understand REST principles so that I can design better APIs" }

/-- The seeded contents of `tasks_db` in `main.py`. -/
def seededTasks : Store :=
  [("task_001", seededTask1), ("task_002", seededTask2)]

/-- One step of reading off the payload value that the update loop leaves
in field `f` last: later payload items overwrite earlier ones. -/
def lastValStep (f : TaskField) (acc : Option Value) (kv : String × Value) :
    Option Value :=
  if parseField kv.1 = some f then some kv.2 else acc

/-- The value the payload supplies for record field `f` (the last
occurrence when a key is repeated), `none` when the payload does not
address `f`. -/
def lastVal (upd : List (String × Value)) (f : TaskField) : Option Value :=
  upd.foldl (lastValStep f) none

/-- The `id` field of the record stored under key `k`, when present. -/
def storedId (db : Store) (k : String) : Option Value :=
  (dictGet db k).map Task.id

/-- JSON values, the shape of every HTTP response body of `main.py`. -/
inductive Json where
  | str (s : String)
  | jbool (b : Bool)
  | jint (n : Int)
  | null
  | arr (xs : List Json)
  | obj (fields : List (String × Json))

/-- Serialization of a stored field value to JSON. -/
def Value.toJson : Value → Json
  | Value.vStr s => Json.str s
  | Value.vNone => Json.null
  | Value.vInt n => Json.jint n
  | Value.vBool b => Json.jbool b
  | Value.vListStr xs => Json.arr (xs.map Json.str)

/-- Serialization of a task record to its JSON dict, keys in the order of
the `Task` pydantic model. -/
def Task.toJson (t : Task) : Json :=
  Json.obj
    [("id", t.id.toJson), ("title", t.title.toJson),
     ("description", t.description.toJson), ("status", t.status.toJson),
     ("created_at", t.created_at.toJson), ("user_story", t.user_story.toJson)]

/-- Keys of a JSON object (empty for non-objects). -/
def jsonKeys : Json → List String
  | Json.obj fields => fields.map Prod.fst
  | _ => []

/-- A user story as stored in `user_stories_db` (the `UserStory` pydantic
model of `main.py`; no endpoint ever mutates a stored story, so typed
string fields are the faithful shape). -/
structure UserStory where
  id : String
  as_a : String
  i_want : String
  so_that : String
  acceptance_criteria : List String
  priority : String
deriving DecidableEq, Repr

/-- The story store `user_stories_db`. -/
def StoryStore : Type := List (String × UserStory)

/-- The seeded record `story_001` of `user_stories_db`. -/
def seededStory1 : UserStory :=
  { id := "story_001"
    as_a := "project manager"
    i_want := "to see all tasks for my team"
    so_that := "I can track progress and identify blockers"
    acceptance_criteria :=
      ["Can view all tasks in a project", "Can filter by status",
       "Can see task assignments"]
    priority := "high" }

/-- The seeded record `story_002` of `user_stories_db`. -/
def seededStory2 : UserStory :=
  { id := "story_002"
    as_a := "developer"
    i_want := "to update task status"
    so_that := "I can keep the team informed of my progress"
    acceptance_criteria :=
      ["Can change status to in_progress", "Can mark tasks as completed",
       "Can add comments to tasks"]
    priority := "medium" }

/-- The seeded contents of `user_stories_db`. -/
def seededStories : StoryStore :=
  [("story_001", seededStory1), ("story_002", seededStory2)]

/-- The `STORY_NOT_FOUND` detail raised by `get_user_story`. -/
def storyNotFoundDetail (now sid : String) : ErrorDetail :=
  { success := false
    error := "STORY_NOT_FOUND"
    message := "User story with ID " ++ sid ++ " not found"
    timestamp := now
    version := "1.0.0" }

/-- Handler of `GET /tasks` (`get_tasks`): all records, in store order. -/
def get_tasks (now : String) (db : Store) : HResult (List Task) × Store :=
  (HResult.ok 200
    { success := true
      data := some (db.map Prod.snd)
      message := some "Tasks retrieved successfully"
      timestamp := now
      version := "1.0.0" }, db)

/-- Handler of `GET /user-stories` (`get_user_stories`). -/
def get_user_stories (now : String) (db : StoryStore) :
    HResult (List UserStory) × StoryStore :=
  (HResult.ok 200
    { success := true
      data := some (db.map Prod.snd)
      message := some "User stories retrieved successfully"
      timestamp := now
      version := "1.0.0" }, db)

/-- Handler of `GET /user-stories/{story_id}` (`get_user_story`). -/
def get_user_story (now : String) (db : StoryStore) (story_id : String) :
    HResult UserStory × StoryStore :=
  match dictGet db story_id with
  | none => (HResult.httpError 404 (storyNotFoundDetail now story_id), db)
  | some s =>
    (HResult.ok 200
      { success := true
        data := some s
        message := some "User story retrieved successfully"
        timestamp := now
        version := "1.0.0" }, db)

/-- Handler of `POST /user-stories` (`create_user_story`): generate
`story_{len(user_stories_db)+1:03d}`, overwrite the id of the submitted
story with it (`story.id = story_id`), store and answer 201. -/
def create_user_story (now : String) (db : StoryStore) (story : UserStory) :
    HResult UserStory × StoryStore :=
  let story_id := "story_" ++ pad3 (db.length + 1)
  let story1 := { story with id := story_id }
  (HResult.ok 201
    { success := true
      data := some story1
      message := some "User story created successfully"
      timestamp := now
      version := "1.0.0" }, dictSet db story_id story1)

/-- A mock task of the gRPC demo servicer (`server.py`). -/
structure MockTask where
  title : String
  status : String
  assigned_to : String
deriving DecidableEq, Repr

/-- The mock-data dict `self.mock_tasks` of `TaskAnalyticsServicer`. -/
def MockStore : Type := List (String × MockTask)

/-- The seeded contents of `self.mock_tasks`. -/
def mockTasks : MockStore :=
  [("task_001",
    { title := "Implement API", status := "in_progress", assigned_to := "alice" }),
   ("task_002",
    { title := "Write tests", status := "completed", assigned_to := "bob" }),
   ("task_003",
    { title := "Code review", status := "pending", assigned_to := "charlie" }),
   ("task_004",
    { title := "Deploy to staging", status := "overdue", assigned_to := "diana" })]

/-- One item of the client stream of `BatchUpdateTasks`. -/
structure UpdateRequest where
  task_id : String
  new_status : String
deriving DecidableEq, Repr

/-- The aggregate `BatchResponse` message of `BatchUpdateTasks`. -/
structure BatchResponse where
  successful_updates : Nat
  failed_updates : Nat
  error_messages : List String
deriving DecidableEq, Repr

/-- The success branch of the loop body:
`if request.task_id in self.mock_tasks: ...["status"] = new_status`. -/
def applyMockUpdate (mock : MockStore) (req : UpdateRequest) : MockStore :=
  match dictGet mock req.task_id with
  | some m => dictSet mock req.task_id { m with status := req.new_status }
  | none => mock

/-- The request-iterator loop of `BatchUpdateTasks`, with the failure
draw `random.random() < 0.2` abstracted into the oracle `fails` indexed
by the position of the item in the stream; `s`, `f` and `errs` are the
running counters and error list. -/
def batchLoop (fails : Nat → Bool) :
    List UpdateRequest → Nat → Nat → Nat → List String → MockStore →
    BatchResponse × MockStore
  | [], _, s, f, errs, mock =>
    ({ successful_updates := s, failed_updates := f, error_messages := errs },
     mock)
  | req :: rest, i, s, f, errs, mock =>
    if fails i then
      batchLoop fails rest (i + 1) s (f + 1)
        (errs ++ ["Failed to update " ++ req.task_id]) mock
    else
      batchLoop fails rest (i + 1) (s + 1) f errs (applyMockUpdate mock req)

/-- The client-streaming RPC `BatchUpdateTasks` of the gRPC demo server:
fold the loop over the streamed items starting from zeroed counters. -/
def BatchUpdateTasks (fails : Nat → Bool) (mock : MockStore)
    (reqs : List UpdateRequest) : BatchResponse × MockStore :=
  batchLoop fails reqs 0 0 0 [] mock

/-- Field lookup in a JSON object (`none` on non-objects). -/
def jsonField : Json → String → Option Json
  | Json.obj fields, k => dictGet fields k
  | _, _ => none

/-- Serialization of an optional payload (`None` becomes JSON null). -/
def optJson {T : Type} (f : T → Json) : Option T → Json
  | none => Json.null
  | some x => f x

/-- Serialization of an optional string. -/
def optStrJson : Option String → Json
  | none => Json.null
  | some s => Json.str s

/-- JSON body of a success envelope, fields in declaration order of the
`ApiResponse` pydantic model. -/
def apiResponseJson {T : Type} (f : T → Json) (r : ApiResponse T) : Json :=
  Json.obj
    [("success", Json.jbool r.success), ("data", optJson f r.data),
     ("message", optStrJson r.message), ("timestamp", Json.str r.timestamp),
     ("version", Json.str r.version)]

/-- JSON body of an error detail. -/
def errorDetailJson (d : ErrorDetail) : Json :=
  Json.obj
    [("success", Json.jbool d.success), ("error", Json.str d.error),
     ("message", Json.str d.message), ("timestamp", Json.str d.timestamp),
     ("version", Json.str d.version)]

/-- HTTP status code and JSON body of a handler outcome. -/
def hresultJson {T : Type} (f : T → Json) : HResult T → Nat × Json
  | HResult.ok status r => (status, apiResponseJson f r)
  | HResult.httpError status d => (status, errorDetailJson d)

/-- Serialization of a user story to its JSON dict. -/
def UserStory.toJson (s : UserStory) : Json :=
  Json.obj
    [("id", Json.str s.id), ("as_a", Json.str s.as_a),
     ("i_want", Json.str s.i_want), ("so_that", Json.str s.so_that),
     ("acceptance_criteria", Json.arr (s.acceptance_criteria.map Json.str)),
     ("priority", Json.str s.priority)]

/-- Serialization of a string-to-string dict. -/
def strDictJson (d : List (String × String)) : Json :=
  Json.obj (d.map (fun p => (p.1, Json.str p.2)))

/-- JSON body of an inline success envelope (the handlers that wrap a
plain dict). -/
def envelopeJson (data : Json) (message now : String) : Json :=
  Json.obj
    [("success", Json.jbool true), ("data", data),
     ("message", Json.str message), ("timestamp", Json.str now),
     ("version", Json.str "1.0.0")]

/-- The `data` dict of the root endpoint. -/
def rootData : Json :=
  Json.obj
    [("message", Json.str "Welcome to Day 1 API Learning!"),
     ("version", Json.str "1.0.0"),
     ("endpoints",
      Json.obj
        [("health", Json.str "/health"), ("tasks", Json.str "/tasks"),
         ("user_stories", Json.str "/user-stories"),
         ("docs", Json.str "/docs")])]

/-- The `data` of the health endpoint (`HealthResponse`). -/
def healthData (now : String) : Json :=
  Json.obj
    [("status", Json.str "healthy"), ("timestamp", Json.str now),
     ("version", Json.str "1.0.0")]

/-- The `data` dict of `GET /response-patterns/envelope`. -/
def envelopeDemoData : Json :=
  Json.obj
    [("example", Json.str "This is wrapped in an envelope"),
     ("benefits",
      Json.arr
        [Json.str "Consistent response structure",
         Json.str "Metadata included (timestamp, version)",
         Json.str "Clear success/failure indication",
         Json.str "Extensible for future needs"])]

/-- The raw body of `GET /response-patterns/direct`
(`demonstrate_direct_response`): no envelope, no metadata. -/
def directDemoBody : Json :=
  Json.obj
    [("example", Json.str "This is a direct response"),
     ("drawbacks",
      Json.arr
        [Json.str "No consistent structure", Json.str "No metadata",
         Json.str "Harder to handle errors uniformly",
         Json.str "Less extensible"])]

/-- The whole server state: both stores. -/
structure ServerState where
  tasks : Store
  stories : StoryStore

/-- A request to one of the routes of `main.py`. -/
inductive Request where
  | root
  | health
  | getTasks
  | getTask (id : String)
  | createTask (req : CreateTaskRequest)
  | updateTask (id : String) (upd : List (String × Value))
  | deleteTask (id : String)
  | getUserStories
  | getUserStory (id : String)
  | createUserStory (story : UserStory)
  | envelopeDemo
  | directDemo
  | error400
  | error404
  | error500
deriving DecidableEq

/-- Route dispatch over the full REST surface of `main.py`: HTTP status,
JSON body, and the server state after the call. -/
def handle (now : String) (st : ServerState) :
    Request → Nat × Json × ServerState
  | Request.root =>
    (200, envelopeJson rootData "API is running successfully" now, st)
  | Request.health =>
    (200, envelopeJson (healthData now) "Service is healthy" now, st)
  | Request.getTasks =>
    let r := get_tasks now st.tasks
    let cb := hresultJson (fun ts => Json.arr (ts.map Task.toJson)) r.1
    (cb.1, cb.2, { st with tasks := r.2 })
  | Request.getTask tid =>
    let r := get_task now st.tasks tid
    let cb := hresultJson Task.toJson r.1
    (cb.1, cb.2, { st with tasks := r.2 })
  | Request.createTask req =>
    let r := create_task now st.tasks req
    let cb := hresultJson Task.toJson r.1
    (cb.1, cb.2, { st with tasks := r.2 })
  | Request.updateTask tid upd =>
    let r := update_task now st.tasks tid upd
    let cb := hresultJson Task.toJson r.1
    (cb.1, cb.2, { st with tasks := r.2 })
  | Request.deleteTask tid =>
    let r := delete_task now st.tasks tid
    let cb := hresultJson strDictJson r.1
    (cb.1, cb.2, { st with tasks := r.2 })
  | Request.getUserStories =>
    let r := get_user_stories now st.stories
    let cb := hresultJson (fun ss => Json.arr (ss.map UserStory.toJson)) r.1
    (cb.1, cb.2, { st with stories := r.2 })
  | Request.getUserStory sid =>
    let r := get_user_story now st.stories sid
    let cb := hresultJson UserStory.toJson r.1
    (cb.1, cb.2, { st with stories := r.2 })
  | Request.createUserStory story =>
    let r := create_user_story now st.stories story
    let cb := hresultJson UserStory.toJson r.1
    (cb.1, cb.2, { st with stories := r.2 })
  | Request.envelopeDemo =>
    (200, envelopeJson envelopeDemoData "Envelope pattern demonstration" now,
     st)
  | Request.directDemo => (200, directDemoBody, st)
  | Request.error400 =>
    (400, errorDetailJson
      { success := false
        error := "BAD_REQUEST"
        message := "Bad request - invalid parameters"
        timestamp := now
        version := "1.0.0" }, st)
  | Request.error404 =>
    (404, errorDetailJson
      { success := false
        error := "NOT_FOUND"
        message := "Resource not found"
        timestamp := now
        version := "1.0.0" }, st)
  | Request.error500 =>
    (500, errorDetailJson
      { success := false
        error := "INTERNAL_ERROR"
        message := "Internal server error"
        timestamp := now
        version := "1.0.0" }, st)

/-- A body is enveloped when it carries the success flag and the
timestamp and version metadata at top level. -/
def isEnveloped (b : Json) : Bool :=
  (jsonField b "success").isSome && (jsonField b "timestamp").isSome &&
    (jsonField b "version").isSome

/-- Writing a key makes it readable: `d[k] = v` then `d[k]` gives `v`. -/
theorem dictGet_dictSet_self {α : Type} (db : List (String × α)) (k : String)
    (v : α) : dictGet (dictSet db k v) k = some v := by
  induction db with
  | nil => simp [dictSet, dictGet]
  | cons p rest ih =>
    by_cases h : p.1 = k
    · simp [dictSet, dictGet, h]
    · simp [dictSet, dictGet, h, ih]

/-- Deleting a key removes it: `del d[k]` then `k` is absent. -/
theorem dictGet_dictDel_self {α : Type} (db : List (String × α))
    (k : String) : dictGet (dictDel db k) k = none := by
  induction db with
  | nil => simp [dictDel, dictGet]
  | cons p rest ih =>
    by_cases h : p.1 = k
    · simp [dictDel, h, ih]
    · simp [dictDel, dictGet, h, ih]

/-- Reading a field after one update-loop iteration: the written value
when the key addresses this field, the prior value otherwise. -/
theorem get_setField (t : Task) (k : String) (v : Value) (f : TaskField) :
    (setField t k v).get f =
      if parseField k = some f then v else t.get f := by
  unfold setField
  cases h : parseField k with
  | none => simp [h]
  | some f1 =>
    simp only [h, Option.some.injEq]
    cases f1 <;> cases f <;> simp [Task.set, Task.get]

/-- Folding the last-written-value scan from an arbitrary accumulator:
the scan from `none` wins when it finds a key, else the accumulator
survives. -/
theorem lastVal_foldl_acc (f : TaskField) (upd : List (String × Value)) :
    ∀ acc : Option Value,
      upd.foldl (lastValStep f) acc =
        match upd.foldl (lastValStep f) none with
        | some v => some v
        | none => acc := by
  induction upd with
  | nil => intro acc; simp
  | cons kv rest ih =>
    intro acc
    simp only [List.foldl_cons]
    rw [ih (lastValStep f acc kv), ih (lastValStep f none kv)]
    cases hA : rest.foldl (lastValStep f) none with
    | some v => simp
    | none =>
      by_cases hc : parseField kv.1 = some f <;> simp [lastValStep, hc]

/-- The update loop, field by field: each record field ends at the last
payload value addressed to it, or keeps its prior value when the payload
never addresses it. -/
theorem get_applyUpdate (upd : List (String × Value)) :
    ∀ (t : Task) (f : TaskField),
      (applyUpdate t upd).get f = (lastVal upd f).getD (t.get f) := by
  induction upd with
  | nil => intro t f; rfl
  | cons kv rest ih =>
    intro t f
    show (applyUpdate (setField t kv.1 kv.2) rest).get f = _
    rw [ih]
    show _ = (List.foldl (lastValStep f) (lastValStep f none kv) rest).getD (t.get f)
    rw [lastVal_foldl_acc f rest (lastValStep f none kv)]
    cases h1 : rest.foldl (lastValStep f) none with
    | some v => simp [lastVal, h1]
    | none =>
      simp only [lastVal, h1, Option.getD_none]
      rw [get_setField]
      unfold lastValStep
      split <;> simp

/-- A payload whose keys never address field `f` leaves no last value
for `f`. -/
theorem lastVal_eq_none (upd : List (String × Value)) (f : TaskField)
    (h : ∀ kv ∈ upd, parseField kv.1 ≠ some f) : lastVal upd f = none := by
  induction upd with
  | nil => rfl
  | cons kv rest ih =>
    have h1 : lastValStep f none kv = none := by
      simp [lastValStep, h kv (by simp)]
    have h2 : lastVal rest f = none :=
      ih (fun kv2 hm => h kv2 (by simp [hm]))
    show List.foldl (lastValStep f) (lastValStep f none kv) rest = none
    rw [lastVal_foldl_acc f rest (lastValStep f none kv), h1]
    simp only [lastVal] at h2
    rw [h2]

/-- The only payload key addressing the `id` field is `id` itself. -/
theorem parseField_eq_id (k : String)
    (h : parseField k = some TaskField.id) : k = "id" := by
  unfold parseField at h
  split_ifs at h <;> simp_all

end TaskFlow

namespace TaskFlow

/-- C1: for every task ID absent from the store, GET, PUT and DELETE on
`/tasks/{id}` all answer HTTP 404 with an error detail carrying
success=false and error code TASK_NOT_FOUND, leaving the store as the
second component. -/
theorem absent_id_404 (now : String) (db : Store) (tid : String)
    (upd : List (String × Value)) (h : dictGet db tid = none) :
    get_task now db tid =
      (HResult.httpError 404
        { success := false
          error := "TASK_NOT_FOUND"
          message := "Task with ID " ++ tid ++ " not found"
          timestamp := now
          version := "1.0.0" }, db) ∧
    update_task now db tid upd =
      (HResult.httpError 404
        { success := false
          error := "TASK_NOT_FOUND"
          message := "Task with ID " ++ tid ++ " not found"
          timestamp := now
          version := "1.0.0" }, db) ∧
    delete_task now db tid =
      (HResult.httpError 404
        { success := false
          error := "TASK_NOT_FOUND"
          message := "Task with ID " ++ tid ++ " not found"
          timestamp := now
          version := "1.0.0" }, db) := by
  refine ⟨?_, ?_, ?_⟩ <;>
    simp [get_task, update_task, delete_task, h, taskNotFoundDetail]

/-- Witness for C1: the concrete ID `task_404` is absent from the seeded
store, and the theorem applies there. -/
theorem absent_id_404_witness :
    get_task "2024-06-01T00:00:00" seededTasks "task_404" =
      (HResult.httpError 404
        { success := false
          error := "TASK_NOT_FOUND"
          message := "Task with ID task_404 not found"
          timestamp := "2024-06-01T00:00:00"
          version := "1.0.0" }, seededTasks) :=
  (absent_id_404 "2024-06-01T00:00:00" seededTasks "task_404" []
    (by decide)).1

/-- C10: the NotFound path is atomic: for every task ID absent from the
store, the failing GET, PUT and DELETE leave the task store unchanged
(the exception is raised before any mutation). -/
theorem absent_id_store_unchanged (now : String) (db : Store) (tid : String)
    (upd : List (String × Value)) (h : dictGet db tid = none) :
    (get_task now db tid).2 = db ∧
    (update_task now db tid upd).2 = db ∧
    (delete_task now db tid).2 = db := by
  refine ⟨?_, ?_, ?_⟩ <;>
    simp [get_task, update_task, delete_task, h]

/-- Witness for C10: the ID `nope` is absent from the seeded store and
none of the three failing calls changes it. -/
theorem absent_id_store_unchanged_witness :
    (delete_task "2024-06-01T00:00:01" seededTasks "nope").2 = seededTasks :=
  (absent_id_store_unchanged "2024-06-01T00:00:01" seededTasks "nope"
    [] (by decide)).2.2

/-- C3: every POST /tasks answers 201 with success=true, and GET on the
returned ID then yields a record whose title, description and user_story
are the submitted values, with status initialized to `pending`. -/
theorem create_then_get (now now2 : String) (db : Store)
    (req : CreateTaskRequest) :
    ∃ (t : Task) (st : Store),
      create_task now db req =
        (HResult.ok 201
          { success := true
            data := some t
            message := some "Task created successfully"
            timestamp := now
            version := "1.0.0" }, st) ∧
      get_task now2 st ("task_" ++ pad3 (db.length + 1)) =
        (HResult.ok 200
          { success := true
            data := some t
            message := some "Task retrieved successfully"
            timestamp := now2
            version := "1.0.0" }, st) ∧
      t.title = Value.vStr req.title ∧
      t.description = Value.vStr req.description ∧
      t.user_story = optValue req.user_story ∧
      t.status = Value.vStr "pending" := by
  refine ⟨_, _, rfl, ?_, rfl, rfl, rfl, rfl⟩
  simp [get_task, create_task, dictGet_dictSet_self]

/-- C6: the ID assigned by POST /tasks is derived from the current
collection size: with n stored tasks the new ID is `task_` followed by
n+1 zero-padded to three digits; in particular the first POST against the
two seeded tasks yields `task_003`. -/
theorem create_id_from_size (now : String) (db : Store)
    (req : CreateTaskRequest) :
    (∃ (t : Task) (st : Store),
      create_task now db req =
        (HResult.ok 201
          { success := true
            data := some t
            message := some "Task created successfully"
            timestamp := now
            version := "1.0.0" }, st) ∧
      t.id = Value.vStr ("task_" ++ pad3 (db.length + 1))) ∧
    (∃ (t : Task) (st : Store),
      create_task now seededTasks
          { title := "X", description := "Y", user_story := none } =
        (HResult.ok 201
          { success := true
            data := some t
            message := some "Task created successfully"
            timestamp := now
            version := "1.0.0" }, st) ∧
      t.id = Value.vStr "task_003") := by
  constructor
  · exact ⟨_, _, rfl, rfl⟩
  · exact ⟨_, _, rfl, rfl⟩

/-- C7: for every task ID present in the store, DELETE succeeds with the
deletion message and a following GET on the same ID answers 404 with
TASK_NOT_FOUND: the delete removes the record. -/
theorem delete_then_get (now now2 : String) (db : Store) (tid : String)
    (t : Task) (h : dictGet db tid = some t) :
    ∃ st : Store,
      delete_task now db tid =
        (HResult.ok 200
          { success := true
            data := some [("message", "Task deleted successfully")]
            message := some "Task deleted successfully"
            timestamp := now
            version := "1.0.0" }, st) ∧
      get_task now2 st tid =
        (HResult.httpError 404
          { success := false
            error := "TASK_NOT_FOUND"
            message := "Task with ID " ++ tid ++ " not found"
            timestamp := now2
            version := "1.0.0" }, st) := by
  refine ⟨dictDel db tid, ?_, ?_⟩
  · simp [delete_task, h]
  · simp [get_task, dictGet_dictDel_self, taskNotFoundDetail]

/-- Witness for C7: deleting the seeded `task_002` and then getting it
yields the NotFound outcome. -/
theorem delete_then_get_witness :
    ∃ st : Store,
      delete_task "t1" seededTasks "task_002" =
        (HResult.ok 200
          { success := true
            data := some [("message", "Task deleted successfully")]
            message := some "Task deleted successfully"
            timestamp := "t1"
            version := "1.0.0" }, st) ∧
      get_task "t2" st "task_002" =
        (HResult.httpError 404
          { success := false
            error := "TASK_NOT_FOUND"
            message := "Task with ID task_002 not found"
            timestamp := "t2"
            version := "1.0.0" }, st) :=
  delete_then_get "t1" "t2" seededTasks "task_002" seededTask2 (by decide)

/-- C2: for every stored task and every update payload, PUT overwrites
exactly the record fields the payload addresses (each ending at the value
supplied for it, the last one when a key repeats), every field the
payload does not address keeps its prior value, and the updated record
still consists of exactly the six task keys, so payload keys that are not
record fields are silently ignored and add nothing. -/
theorem update_task_frame (now : String) (db : Store) (tid : String)
    (upd : List (String × Value)) (t : Task)
    (h : dictGet db tid = some t) :
    ∃ t1 : Task,
      update_task now db tid upd =
        (HResult.ok 200
          { success := true
            data := some t1
            message := some "Task updated successfully"
            timestamp := now
            version := "1.0.0" }, dictSet db tid t1) ∧
      dictGet (update_task now db tid upd).2 tid = some t1 ∧
      (∀ f : TaskField, t1.get f = (lastVal upd f).getD (t.get f)) ∧
      jsonKeys t1.toJson =
        ["id", "title", "description", "status", "created_at", "user_story"] := by
  refine ⟨applyUpdate t upd, ?_, ?_, ?_, rfl⟩
  · simp [update_task, h]
  · simp [update_task, h, dictGet_dictSet_self]
  · intro f
    exact get_applyUpdate upd t f

/-- Witness for C2: updating the seeded `task_001` with a payload that
sets `status` and carries the unknown key `bogus`. -/
theorem update_task_frame_witness :
    ∃ t1 : Task,
      update_task "t4" seededTasks "task_001"
          [("status", Value.vStr "done"), ("bogus", Value.vInt 7)] =
        (HResult.ok 200
          { success := true
            data := some t1
            message := some "Task updated successfully"
            timestamp := "t4"
            version := "1.0.0" },
         dictSet seededTasks "task_001" t1) ∧
      dictGet (update_task "t4" seededTasks "task_001"
          [("status", Value.vStr "done"), ("bogus", Value.vInt 7)]).2
          "task_001" = some t1 ∧
      (∀ f : TaskField,
        t1.get f =
          (lastVal [("status", Value.vStr "done"), ("bogus", Value.vInt 7)]
            f).getD (seededTask1.get f)) ∧
      jsonKeys t1.toJson =
        ["id", "title", "description", "status", "created_at", "user_story"] :=
  update_task_frame "t4" seededTasks "task_001"
    [("status", Value.vStr "done"), ("bogus", Value.vInt 7)] seededTask1
    (by decide)

/-- Counterexample to C5: PUT on the seeded `task_001` with the payload
mapping key `id` to `hacked` changes the stored id field from `task_001`
to `hacked`, so the id field is not immutable under the exposed
operations. -/
theorem put_id_overwritten :
    storedId seededTasks "task_001" = some (Value.vStr "task_001") ∧
    storedId (update_task "t0" seededTasks "task_001"
        [("id", Value.vStr "hacked")]).2 "task_001" =
      some (Value.vStr "hacked") ∧
    Value.vStr "hacked" ≠ Value.vStr "task_001" := by
  refine ⟨rfl, by decide, by decide⟩

/-- C5 amended: a PUT whose payload contains no key `id` leaves the
stored id field of the task unchanged (a payload that does contain `id`
overwrites it, as the counterexample shows; the store key itself is
never changed). -/
theorem put_without_id_preserves_id (now : String) (db : Store)
    (tid : String) (upd : List (String × Value)) (t : Task)
    (h : dictGet db tid = some t)
    (hid : ∀ kv ∈ upd, kv.1 ≠ "id") :
    storedId (update_task now db tid upd).2 tid = some t.id := by
  have hlast : lastVal upd TaskField.id = none :=
    lastVal_eq_none upd TaskField.id
      (fun kv hm hp => hid kv hm (parseField_eq_id kv.1 hp))
  have hget := get_applyUpdate upd t TaskField.id
  rw [hlast] at hget
  simp only [Option.getD_none] at hget
  simp [update_task, h, storedId, dictGet_dictSet_self]
  exact hget

/-- Witness for C5 amended: a PUT on the seeded `task_001` setting only
`title` keeps the stored id `task_001`. -/
theorem put_without_id_preserves_id_witness :
    storedId (update_task "t5" seededTasks "task_001"
        [("title", Value.vStr "New title")]).2 "task_001" =
      some seededTask1.id :=
  put_without_id_preserves_id "t5" seededTasks "task_001"
    [("title", Value.vStr "New title")] seededTask1 (by decide) (by decide)

/-- Invariant of the batch-update loop: when the running error list has
one entry per failure so far, the final counters add up to the items
processed and the final error list has one entry per failure. -/
theorem batchLoop_counts (fails : Nat → Bool) (reqs : List UpdateRequest) :
    ∀ (i s f : Nat) (errs : List String) (mock : MockStore),
      errs.length = f →
      (batchLoop fails reqs i s f errs mock).1.successful_updates +
          (batchLoop fails reqs i s f errs mock).1.failed_updates =
        s + f + reqs.length ∧
      (batchLoop fails reqs i s f errs mock).1.error_messages.length =
        (batchLoop fails reqs i s f errs mock).1.failed_updates := by
  induction reqs with
  | nil =>
    intro i s f errs mock he
    simp [batchLoop, he]
  | cons req rest ih =>
    intro i s f errs mock he
    cases hb : fails i with
    | true =>
      have hstep : batchLoop fails (req :: rest) i s f errs mock =
          batchLoop fails rest (i + 1) s (f + 1)
            (errs ++ ["Failed to update " ++ req.task_id]) mock := by
        simp [batchLoop, hb]
      have hr := ih (i + 1) s (f + 1)
        (errs ++ ["Failed to update " ++ req.task_id]) mock (by simp [he])
      rw [hstep]
      refine ⟨?_, hr.2⟩
      rw [hr.1]
      simp only [List.length_cons]
      omega
    | false =>
      have hstep : batchLoop fails (req :: rest) i s f errs mock =
          batchLoop fails rest (i + 1) (s + 1) f errs
            (applyMockUpdate mock req) := by
        simp [batchLoop, hb]
      have hr := ih (i + 1) (s + 1) f errs (applyMockUpdate mock req) he
      rw [hstep]
      refine ⟨?_, hr.2⟩
      rw [hr.1]
      simp only [List.length_cons]
      omega

/-- C8: for every stream of batch-update items and every outcome of the
per-item failure draw, the aggregate BatchResponse satisfies
successful_updates + failed_updates = number of streamed items, and
error_messages holds exactly one entry per failed item. -/
theorem batch_update_counts (fails : Nat → Bool) (mock : MockStore)
    (reqs : List UpdateRequest) :
    (BatchUpdateTasks fails mock reqs).1.successful_updates +
        (BatchUpdateTasks fails mock reqs).1.failed_updates = reqs.length ∧
    (BatchUpdateTasks fails mock reqs).1.error_messages.length =
      (BatchUpdateTasks fails mock reqs).1.failed_updates := by
  have hr := batchLoop_counts fails reqs 0 0 0 [] mock rfl
  simpa [BatchUpdateTasks] using hr

/-- C9: POST /user-stories discards the client-supplied id: the story is
stored and returned with the server-generated id `story_` followed by
n+1 zero-padded to three digits (n the current story count), all other
fields as submitted, whatever id the client sent. -/
theorem create_user_story_id (now : String) (db : StoryStore)
    (story : UserStory) :
    ∃ (s1 : UserStory) (st : StoryStore),
      create_user_story now db story =
        (HResult.ok 201
          { success := true
            data := some s1
            message := some "User story created successfully"
            timestamp := now
            version := "1.0.0" }, st) ∧
      s1.id = "story_" ++ pad3 (db.length + 1) ∧
      dictGet st ("story_" ++ pad3 (db.length + 1)) = some s1 ∧
      s1 = { story with id := "story_" ++ pad3 (db.length + 1) } := by
  refine ⟨_, _, rfl, rfl, ?_, rfl⟩
  exact dictGet_dictSet_self db _ _

/-- C4: every route of the REST surface except the contrasted
direct-response demonstration answers a body carrying the top-level
timestamp (the request clock, non-empty) and version `1.0.0` fields,
success and error alike, and that body is enveloped; the direct
demonstration endpoint alone answers an unwrapped body with neither
field. -/
theorem envelope_metadata (now : String) (st : ServerState) (rq : Request)
    (hn : now ≠ "") :
    (rq ≠ Request.directDemo →
      jsonField (handle now st rq).2.1 "timestamp" = some (Json.str now) ∧
      now ≠ "" ∧
      jsonField (handle now st rq).2.1 "version" = some (Json.str "1.0.0") ∧
      ("1.0.0" : String) ≠ "" ∧
      isEnveloped (handle now st rq).2.1 = true) ∧
    isEnveloped (handle now st Request.directDemo).2.1 = false ∧
    jsonField (handle now st Request.directDemo).2.1 "timestamp" = none ∧
    jsonField (handle now st Request.directDemo).2.1 "version" = none := by
  refine ⟨?_, rfl, rfl, rfl⟩
  intro hrq
  cases rq with
  | directDemo => exact absurd rfl hrq
  | getTask tid =>
    cases h : dictGet st.tasks tid with
    | none =>
      simp only [handle, get_task, h]
      exact ⟨rfl, hn, rfl, by decide, rfl⟩
    | some t =>
      simp only [handle, get_task, h]
      exact ⟨rfl, hn, rfl, by decide, rfl⟩
  | updateTask tid upd =>
    cases h : dictGet st.tasks tid with
    | none =>
      simp only [handle, update_task, h]
      exact ⟨rfl, hn, rfl, by decide, rfl⟩
    | some t =>
      simp only [handle, update_task, h]
      exact ⟨rfl, hn, rfl, by decide, rfl⟩
  | deleteTask tid =>
    cases h : dictGet st.tasks tid with
    | none =>
      simp only [handle, delete_task, h]
      exact ⟨rfl, hn, rfl, by decide, rfl⟩
    | some t =>
      simp only [handle, delete_task, h]
      exact ⟨rfl, hn, rfl, by decide, rfl⟩
  | getUserStory sid =>
    cases h : dictGet st.stories sid with
    | none =>
      simp only [handle, get_user_story, h]
      exact ⟨rfl, hn, rfl, by decide, rfl⟩
    | some s =>
      simp only [handle, get_user_story, h]
      exact ⟨rfl, hn, rfl, by decide, rfl⟩
  | root => exact ⟨rfl, hn, rfl, by decide, rfl⟩
  | health => exact ⟨rfl, hn, rfl, by decide, rfl⟩
  | getTasks => exact ⟨rfl, hn, rfl, by decide, rfl⟩
  | createTask req => exact ⟨rfl, hn, rfl, by decide, rfl⟩
  | getUserStories => exact ⟨rfl, hn, rfl, by decide, rfl⟩
  | createUserStory story => exact ⟨rfl, hn, rfl, by decide, rfl⟩
  | envelopeDemo => exact ⟨rfl, hn, rfl, by decide, rfl⟩
  | error400 => exact ⟨rfl, hn, rfl, by decide, rfl⟩
  | error404 => exact ⟨rfl, hn, rfl, by decide, rfl⟩
  | error500 => exact ⟨rfl, hn, rfl, by decide, rfl⟩

/-- Witness for C4: the root route against the seeded stores at a
concrete non-empty clock. -/
theorem envelope_metadata_witness :
    (Request.root ≠ Request.directDemo →
      jsonField
          (handle "t6" { tasks := seededTasks, stories := seededStories }
            Request.root).2.1 "timestamp" = some (Json.str "t6") ∧
      ("t6" : String) ≠ "" ∧
      jsonField
          (handle "t6" { tasks := seededTasks, stories := seededStories }
            Request.root).2.1 "version" = some (Json.str "1.0.0") ∧
      ("1.0.0" : String) ≠ "" ∧
      isEnveloped
          (handle "t6" { tasks := seededTasks, stories := seededStories }
            Request.root).2.1 = true) ∧
    isEnveloped
        (handle "t6" { tasks := seededTasks, stories := seededStories }
          Request.directDemo).2.1 = false ∧
    jsonField
        (handle "t6" { tasks := seededTasks, stories := seededStories }
          Request.directDemo).2.1 "timestamp" = none ∧
    jsonField
        (handle "t6" { tasks := seededTasks, stories := seededStories }
          Request.directDemo).2.1 "version" = none :=
  envelope_metadata "t6" { tasks := seededTasks, stories := seededStories }
    Request.root (by decide)

end TaskFlow
